import Mathlib

/-!
Shallow embedding of the multi-agent tutor backend
(`src/backend/rate_limiter.py`, `src/backend/graph.py`,
`src/backend/main.py`, `src/backend/config.py`, `src/backend/state.py`).

Python floats are modelled as exact rationals (`ℚ`), Python ints as `ℤ`,
Redis/checkpoint stores as functions from string keys to optional records,
and the external LLM adapters as explicit outcome parameters (`Option`,
with `none` standing for the exception path that each node catches).
-/

namespace Tutor

/-- Python `int(q)` on a nonnegative-or-negative rational: truncation
toward zero (`int()` of a float truncates toward zero). -/
def ratTrunc (q : ℚ) : ℤ :=
  if 0 ≤ q then ((q.num.toNat / q.den : ℕ) : ℤ)
  else -(((-q.num).toNat / q.den : ℕ) : ℤ)

/-- `RateLimitConfig` from `rate_limiter.py` (defaults: 5 / 50 requests
per 60-second window). -/
structure RateLimitConfig where
  free_limit : ℤ := 5
  pro_limit : ℤ := 50
  window_seconds : ℤ := 60
deriving DecidableEq

/-- The default configuration (the one `init_rate_limiter` installs:
`RateLimiter(redis_url)` is built with `config=None`). -/
def defaultRateLimitConfig : RateLimitConfig := {}

/-- `RateLimiter._get_limit_for_tier`: "pro" gets `pro_limit`, every
other tier string gets `free_limit`. -/
def getLimitForTier (cfg : RateLimitConfig) (tier : String) : ℤ :=
  if tier = "pro" then cfg.pro_limit else cfg.free_limit

/-- One stored rate-limit record: the pair of Redis keys
`rate_limit:{user}:tokens` and `rate_limit:{user}:last`
(always written together by `check_rate_limit`). -/
structure RLEntry where
  tokens : ℚ
  last : ℚ
deriving DecidableEq

/-- The Redis keyspace for the rate limiter, keyed by user id;
`none` means the keys are absent (expired or never written). -/
def RLStore : Type := String → Option RLEntry

/-- An everywhere-empty keyspace. -/
def emptyRLStore : RLStore := fun _ => none

/-- Result triple of `check_rate_limit`: `(allowed, remaining, reset_in)`. -/
structure CheckResult where
  allowed : Bool
  remaining : ℤ
  resetIn : ℤ
deriving DecidableEq

/-- The refill computation shared by `check_rate_limit` and
`get_quota_status`:
`current_tokens` defaults to the full limit when the key is absent,
`last_time` defaults to `now`, and
`new_tokens = min(limit, current_tokens + (now - last) * (limit / window))`. -/
def refilledTokens (cfg : RateLimitConfig) (store : RLStore)
    (user tier : String) (now : ℚ) : ℚ :=
  let limit : ℤ := getLimitForTier cfg tier
  let current : ℚ := match store user with
    | some e => e.tokens
    | none => (limit : ℚ)
  let last : ℚ := match store user with
    | some e => e.last
    | none => now
  min (limit : ℚ) (current + (now - last) * ((limit : ℚ) / (cfg.window_seconds : ℚ)))

/-- `RateLimiter.check_rate_limit` (lines 67-135 of `rate_limiter.py`):
refill, compute `reset_in` by truncating `(1 - new_tokens) * (window / limit)`
when `new_tokens < 1`, consume one token when `new_tokens >= 1`, and
unconditionally write both keys back with the current timestamp. -/
def check_rate_limit (cfg : RateLimitConfig) (store : RLStore)
    (user tier : String) (now : ℚ) : CheckResult × RLStore :=
  let limit : ℤ := getLimitForTier cfg tier
  let newTokens : ℚ := refilledTokens cfg store user tier now
  let resetIn : ℤ :=
    if newTokens < 1 then
      ratTrunc ((1 - newTokens) * ((cfg.window_seconds : ℚ) / (limit : ℚ)))
    else 0
  let finalTokens : ℚ := if 1 ≤ newTokens then newTokens - 1 else newTokens
  let allowed : Bool := decide (1 ≤ newTokens)
  let store2 : RLStore := fun v => if v = user then some ⟨finalTokens, now⟩ else store v
  (⟨allowed, max 0 (ratTrunc finalTokens), resetIn⟩, store2)

/-- Return value of `get_quota_status`. -/
structure QuotaStatus where
  remaining : ℤ
  limit : ℤ
  window_seconds : ℤ
  reset_in_seconds : ℤ
  tier : String
deriving DecidableEq

/-- `RateLimiter.get_quota_status` (lines 137-186): same refill
computation as `check_rate_limit`, without consuming. -/
def get_quota_status (cfg : RateLimitConfig) (store : RLStore)
    (user tier : String) (now : ℚ) : QuotaStatus :=
  let limit : ℤ := getLimitForTier cfg tier
  let current : ℚ := refilledTokens cfg store user tier now
  let tokensNeeded : ℚ := (limit : ℚ) - current
  let resetIn : ℤ :=
    if 0 < tokensNeeded then
      ratTrunc (tokensNeeded * ((cfg.window_seconds : ℚ) / (limit : ℚ)))
    else 0
  ⟨max 0 (ratTrunc current), limit, cfg.window_seconds, resetIn, tier⟩

/-- The keyspace after `n` consecutive `check_rate_limit` calls for `user`,
all issued at the same instant `t0`, starting from an absent record. -/
def runChecks (cfg : RateLimitConfig) (user tier : String) (t0 : ℚ) : ℕ → RLStore
  | 0 => emptyRLStore
  | n + 1 => (check_rate_limit cfg (runChecks cfg user tier t0 n) user tier t0).2

/-- The result of check number `n + 1` in that sequence (0-indexed `n`). -/
def nthCheck (cfg : RateLimitConfig) (user tier : String) (t0 : ℚ) (n : ℕ) : CheckResult :=
  (check_rate_limit cfg (runChecks cfg user tier t0 n) user tier t0).1

/-- A keyspace holding a single depleted record for user `"alice"`:
zero tokens, last refill at time 100. -/
def depletedStore : RLStore := fun v => if v = "alice" then some ⟨0, 100⟩ else none

/-- Confidence thresholds from `config.py` (`Settings`): defaults
`confidence_threshold_low = 0.4`, `confidence_threshold_high = 0.75`. -/
structure Settings where
  confidence_threshold_low : ℚ := 2/5
  confidence_threshold_high : ℚ := 3/4
deriving DecidableEq

/-- The global `settings` instance (defaults). -/
def settings : Settings := {}

/-- The `input_type` literal of `GraphState`. -/
inductive InputType where
  | text
  | image
deriving DecidableEq

/-- One entry of `solution_steps` (the dict built in `step_solver_node`
from the `SolutionStep` schema). -/
structure SolutionStep where
  step_number : ℤ
  title : String
  explanation : String
  math_expression : String
deriving DecidableEq

/-- The `GraphState` TypedDict from `state.py`: every key is always
present (nodes return full copies of the state). -/
structure GraphState where
  input_type : InputType
  input_content : String
  user_id : String
  thread_id : String
  topic : Option String
  confidence_score : ℚ
  detected_ambiguity : Bool
  candidate_topics : List String
  teaching_plan : Option String
  worked_example : Option String
  practice_problem : Option String
  video_url : Option String
  solution_steps : Option (List SolutionStep)
  final_response_html : Option String
  requires_user_action : Bool
deriving DecidableEq

/-- The structured classifier output (`ClassificationResult` schema in
`graph.py`). -/
structure ClassificationResult where
  subject : String
  category : String
  specific_topic : String
  confidence : ℚ
  ambiguous : Bool
  alternatives : List String
deriving DecidableEq

/-- Whether `needle` is a leading run of `hay` (character lists). -/
def charsLeadMatch : List Char → List Char → Bool
  | [], _ => true
  | _ :: _, [] => false
  | a :: as, b :: bs => a == b && charsLeadMatch as bs

/-- Whether `needle` occurs contiguously anywhere in the list. -/
def charsContain (needle : List Char) : List Char → Bool
  | [] => needle.isEmpty
  | c :: cs => charsLeadMatch needle (c :: cs) || charsContain needle cs

/-- The `math_indicators` list from `text_classifier_node`. -/
def mathIndicators : List String :=
  ["+", "-", "=", "x", "÷", "^", "derivative", "integral", "equation", "[", "]"]

/-- Python `any(indicator in state["input_content"].lower() for indicator
in math_indicators)`; lower-casing is applied character by character. -/
def hasMathIndicator (input : String) : Bool :=
  mathIndicators.any fun ind => charsContain ind.toList (input.toList.map Char.toLower)

/-- First safety check of `text_classifier_node`: an identified topic
(non-empty, not "Unknown") with confidence below 0.5 is bumped to 0.95. -/
def confAfterTopicFix (result : ClassificationResult) : ℚ :=
  if result.specific_topic ≠ "" ∧ result.specific_topic ≠ "Unknown" ∧ result.confidence < 1/2
  then 19/20 else result.confidence

/-- Second safety check: with a math-operator token in the raw input,
a confidence still below 0.9 is forced to 1.0. -/
def confAfterMathFix (result : ClassificationResult) (input : String) : ℚ :=
  if hasMathIndicator input = true ∧ confAfterTopicFix result < 9/10
  then 1 else confAfterTopicFix result

/-- Python `f"{x}"` on an `Optional[str]`: `None` prints as "None". -/
def optStr : Option String → String
  | some s => s
  | none => "None"

/-- Model of `text_classifier_node` (graph.py lines 82-199). The LLM call
is the explicit `outcome` parameter; `none` is the exception path, which
returns the low-confidence fallback. On success the two confidence
overrides run, then the topic string is built (`None` for subject
"Unknown") and gated on the low threshold. -/
def text_classifier_node (s : Settings) (outcome : Option ClassificationResult)
    (st : GraphState) : GraphState :=
  match outcome with
  | some result =>
    let conf := confAfterMathFix result st.input_content
    let full_topic : Option String :=
      if result.subject = "Unknown" then none
      else some (result.subject ++ " - " ++ result.category ++ " - " ++ result.specific_topic)
    { st with
      topic := if s.confidence_threshold_low ≤ conf then full_topic else none,
      confidence_score := conf,
      detected_ambiguity := result.ambiguous,
      candidate_topics := result.alternatives }
  | none =>
    { st with
      topic := none,
      confidence_score := 3/10,
      detected_ambiguity := true,
      candidate_topics := ["Math - Algebra", "Math - Calculus", "Physics - Mechanics"] }

/-- The JSON object parsed from the vision model's reply
(`data.get(...)` defaults apply field by field). -/
structure VisionData where
  extracted_problem : Option String := none
  subject : Option String := none
  category : Option String := none
  specific_topic : Option String := none
  confidence : Option ℚ := none
deriving DecidableEq

/-- Outcome of the vision call: a parsed JSON object, an exception on the
first attempt (non-quota errors return immediately), or exhaustion of the
retry loop. -/
inductive VisionOutcome where
  | parsed (data : VisionData)
  | errorFallback
  | retriesExhausted
deriving DecidableEq

/-- Model of `vision_classifier_node` (graph.py lines 202-305). On a
parsed reply the topic is always set and the confidence is taken from the
reply (default 0.9); both failure paths return the 0.3-confidence
fallback with `topic = None`. -/
def vision_classifier_node (outcome : VisionOutcome) (st : GraphState) : GraphState :=
  match outcome with
  | .parsed data =>
    { st with
      input_content := data.extracted_problem.getD "",
      topic := some ((data.subject.getD "Math") ++ " - " ++ (data.category.getD "Unknown")
        ++ " - " ++ (data.specific_topic.getD "Unknown")),
      confidence_score := data.confidence.getD (9/10),
      detected_ambiguity := false,
      candidate_topics := [] }
  | .errorFallback =>
    { st with
      topic := none,
      confidence_score := 3/10,
      detected_ambiguity := true,
      candidate_topics :=
        ["API rate limit reached. Please try again in a minute or paste the text instead."] }
  | .retriesExhausted =>
    { st with
      topic := none,
      confidence_score := 3/10,
      detected_ambiguity := true,
      candidate_topics := ["Failed after retries. Please paste the text instead."] }

/-- Branch labels returned by `route_by_confidence`. -/
inductive RouteLabel where
  | clarify
  | disambiguate
  | teach
deriving DecidableEq

/-- Model of `route_by_confidence` (graph.py lines 322-338). -/
def route_by_confidence (s : Settings) (st : GraphState) : RouteLabel :=
  if st.confidence_score < s.confidence_threshold_low then .clarify
  else if st.confidence_score < s.confidence_threshold_high ∨ st.detected_ambiguity then
    .disambiguate
  else .teach



/-- Model of `clarification_node`. -/
def clarification_node (st : GraphState) : GraphState :=
  { st with
    requires_user_action := true,
    final_response_html := some "<p>Could you please provide more details?</p>" }

/-- The ASCII single-quote character used in the disambiguation markup. -/
def singleQuote : String := String.singleton (Char.ofNat 39)

/-- Model of `disambiguation_node`: builds the selection list markup. -/
def disambiguation_node (st : GraphState) : GraphState :=
  let topics_html := String.join (st.candidate_topics.map fun t =>
    "<li data-topic=" ++ singleQuote ++ t ++ singleQuote ++ ">" ++ t ++ "</li>")
  { st with
    requires_user_action := true,
    final_response_html := some ("<p>Please select the topic:</p><ul>" ++ topics_html ++ "</ul>") }

/-- The `TeachingPlan` structured-output schema. -/
structure TeachingPlan where
  html_content : String
  keywords : List String
deriving DecidableEq

/-- The `WorkedSolution` structured-output schema. -/
structure WorkedSolution where
  problem_restatement : String
  steps : List SolutionStep
  final_answer : String
  key_concepts : List String
deriving DecidableEq

/-- Model of `teaching_architect_node`: the LLM call is the `planR`
parameter; the exception path substitutes the fallback plan. -/
def teaching_architect_node (planR : Option TeachingPlan) (st : GraphState) : GraphState :=
  match planR with
  | some r => { st with teaching_plan := some r.html_content }
  | none =>
    { st with
      teaching_plan := some ("<p>Step-by-step approach for " ++ optStr st.topic ++ "</p>") }

/-- Model of `step_solver_node`: the LLM call is the `solR` parameter;
the exception path substitutes the error step. -/
def step_solver_node (solR : Option WorkedSolution) (st : GraphState) : GraphState :=
  match solR with
  | some r =>
    { st with solution_steps := some r.steps, worked_example := some r.final_answer }
  | none =>
    { st with
      solution_steps := some [⟨1, "Error", "Failed to generate solution", ""⟩],
      worked_example := some "Solution generation failed" }

/-- Model of `practice_node` (pure apart from the sleep). -/
def practice_node (st : GraphState) : GraphState :=
  { st with practice_problem := some "## Try it yourself!\n\n..." }

/-- Model of `video_node` (pure apart from the sleep). -/
def video_node (st : GraphState) : GraphState :=
  { st with video_url := some "https://youtube.com/watch?v=example" }

/-- Python `merged_state.update(result)` where `result` is a dict that
carries every key of the state (each node returns a full copy built with
a star-spread of the input state): every field of the target is
overwritten by the update dict's value. -/
def updateFull (_base upd : GraphState) : GraphState :=
  { input_type := upd.input_type,
    input_content := upd.input_content,
    user_id := upd.user_id,
    thread_id := upd.thread_id,
    topic := upd.topic,
    confidence_score := upd.confidence_score,
    detected_ambiguity := upd.detected_ambiguity,
    candidate_topics := upd.candidate_topics,
    teaching_plan := upd.teaching_plan,
    worked_example := upd.worked_example,
    practice_problem := upd.practice_problem,
    video_url := upd.video_url,
    solution_steps := upd.solution_steps,
    final_response_html := upd.final_response_html,
    requires_user_action := upd.requires_user_action }

/-- Model of `parallel_teaching_nodes` (graph.py lines 511-521): gather
returns `[practice_node(state), video_node(state)]` in argument order;
`merged_state` starts as a copy of `state` and is updated with each full
result in that order. -/
def parallel_teaching_nodes (st : GraphState) : GraphState :=
  updateFull (updateFull st (practice_node st)) (video_node st)

/-- Model of `assembler_node` (graph.py lines 524-531). -/
def assembler_node (st : GraphState) : GraphState :=
  { st with
    final_response_html := some ("<html><body><h1>" ++ optStr st.topic ++ "</h1></body></html>"),
    requires_user_action := false }

/-- The teach branch of the graph after the router:
`teaching_architect → step_solver → parallel_teaching → assembler`. -/
def teachPipeline (planR : Option TeachingPlan) (solR : Option WorkedSolution)
    (st : GraphState) : GraphState :=
  assembler_node (parallel_teaching_nodes (step_solver_node solR (teaching_architect_node planR st)))

/-- Execution from the router's conditional edge: the branch picked by
`route_by_confidence` runs to the next terminal step (clarify and
disambiguate are terminal; teach runs the full pipeline). -/
def continueFromRouter (s : Settings) (planR : Option TeachingPlan)
    (solR : Option WorkedSolution) (st : GraphState) : GraphState :=
  match route_by_confidence s st with
  | .clarify => clarification_node st
  | .disambiguate => disambiguation_node st
  | .teach => teachPipeline planR solR st

/-- The checkpoint store, keyed by `thread_id` (one row per session). -/
def CkptStore : Type := String → Option GraphState

/-- A checkpoint store with no sessions. -/
def emptyCkptStore : CkptStore := fun _ => none

/-- The `/v1/resume` request body. -/
structure ResumeRequest where
  thread_id : String
  selected_topic : String
deriving DecidableEq

/-- The `status` literal of `AnalyzeResponse`. -/
inductive AnalyzeStatus where
  | completed
  | requires_disambiguation
  | requires_clarification
  | error
deriving DecidableEq

/-- The `AnalyzeResponse` model from `main.py` (fields omitted by a
handler default to `None`). -/
structure AnalyzeResponse where
  thread_id : String
  status : AnalyzeStatus
  requires_user_action : Bool
  final_response_html : Option String := none
  candidate_topics : Option (List String) := none
  topic : Option String := none
  confidence_score : Option ℚ := none
  solution_steps : Option (List SolutionStep) := none
  final_answer : Option String := none
deriving DecidableEq

/-- What a call to the `/v1/resume` handler produces: either a response
plus the updated checkpoint store, or an HTTP error (code, detail) with
the store left as it was. -/
inductive ResumeOutcome where
  | ok (resp : AnalyzeResponse) (store : CkptStore)
  | httpError (code : ℕ) (detail : String) (store : CkptStore)

/-- The partial update applied by `resume_workflow` before re-invoking
the graph: chosen topic, confidence 1.0, ambiguity and halt flags
cleared. -/
def applyOverride (sel : String) (st : GraphState) : GraphState :=
  { st with
    topic := some sel,
    confidence_score := 1,
    detected_ambiguity := false,
    requires_user_action := false }

/-- Model of `resume_workflow` (main.py lines 270-306). When the
checkpoint is missing the handler raises `HTTPException(404, "Thread not
found")` inside its own `try`, and the blanket `except Exception` clause
catches it and re-raises `HTTPException(500, str(e))`; starlette renders
`str(e)` as "404: Thread not found", so the caller sees a 500. No state
is written on that path. Otherwise the override (selected topic,
confidence 1.0, ambiguity and halt flags cleared) is applied, execution
re-enters at the router's conditional edge and runs to the next terminal
step (spec section 4.1 semantics of `aupdate_state` + `ainvoke(None)`),
and the handler returns a hard-coded `completed` response. -/
def resume_workflow (store : CkptStore) (planR : Option TeachingPlan)
    (solR : Option WorkedSolution) (req : ResumeRequest) : ResumeOutcome :=
  match store req.thread_id with
  | none => .httpError 500 "404: Thread not found" store
  | some st =>
    let updated := applyOverride req.selected_topic st
    let final := continueFromRouter settings planR solR updated
    .ok { thread_id := req.thread_id,
          status := .completed,
          requires_user_action := false,
          final_response_html := final.final_response_html,
          topic := final.topic,
          confidence_score := some final.confidence_score }
      (fun tid => if tid = req.thread_id then some final else store tid)

/-- The fresh `initial_state` dict built by the `/v1/analyze` handler. -/
def mkInputState (ty : InputType) (content : String) : GraphState :=
  { input_type := ty,
    input_content := content,
    user_id := "test_user",
    thread_id := "t1",
    topic := none,
    confidence_score := 0,
    detected_ambiguity := false,
    candidate_topics := [],
    teaching_plan := none,
    worked_example := none,
    practice_problem := none,
    video_url := none,
    solution_steps := none,
    final_response_html := none,
    requires_user_action := false }

/-- A parsed vision reply whose reported confidence (0.2) is below the
low routing threshold. -/
def lowConfVisionData : VisionData :=
  { extracted_problem := some "2x+5=13",
    subject := some "Math",
    category := some "Algebra",
    specific_topic := some "Linear Equations",
    confidence := some (1/5) }

/-- A classifier result with an identified topic and confidence 0.95. -/
def mathyMidConfResult : ClassificationResult :=
  { subject := "Math",
    category := "Linear Algebra",
    specific_topic := "Cross Product",
    confidence := 19/20,
    ambiguous := false,
    alternatives := [] }

/-- A classifier result with an identified topic and confidence 0.2. -/
def lowConfTextResult : ClassificationResult :=
  { subject := "Math",
    category := "Algebra",
    specific_topic := "Linear Equations",
    confidence := 1/5,
    ambiguous := false,
    alternatives := [] }

/-- A session halted for disambiguation, as stored in the checkpoint
store. -/
def haltedState : GraphState :=
  { mkInputState .text "what is the product of two things" with
    confidence_score := 3/5,
    candidate_topics := ["Math - Linear Algebra - Cross Product",
      "Math - Linear Algebra - Dot Product"],
    requires_user_action := true }

/-- A checkpoint store holding exactly the halted session `"s1"`. -/
def haltedStore : CkptStore := fun tid => if tid = "s1" then some haltedState else none

/-- Floor of a quotient of natural-number casts is natural division. -/
lemma floor_natCast_div (n d : ℕ) (hd : 0 < d) :
    ⌊((n : ℚ) / (d : ℚ))⌋ = ((n / d : ℕ) : ℤ) := by
  have hdq : 0 < (d : ℚ) := by exact_mod_cast hd
  rw [Int.floor_eq_iff]
  constructor
  · rw [le_div_iff₀ hdq]
    exact_mod_cast Nat.div_mul_le_self n d
  · rw [div_lt_iff₀ hdq]
    have h1 : d * (n / d) + n % d = n := Nat.div_add_mod n d
    have h2 : n % d < d := Nat.mod_lt _ hd
    have h3 : n < (n / d + 1) * d := by
      calc n = d * (n / d) + n % d := h1.symm
        _ < d * (n / d) + d := by omega
        _ = (n / d + 1) * d := by ring
    exact_mod_cast h3

/-- On nonnegative rationals, Python truncation agrees with the floor. -/
lemma ratTrunc_eq_floor (q : ℚ) (hq : 0 ≤ q) : ratTrunc q = ⌊q⌋ := by
  have hnum : 0 ≤ q.num := Rat.num_nonneg.mpr hq
  have hq' : q = ((q.num.toNat : ℚ)) / ((q.den : ℚ)) := by
    have h0 : ((q.num.toNat : ℚ)) = (q.num : ℚ) := by
      have := Int.toNat_of_nonneg hnum
      exact_mod_cast congrArg (fun z : ℤ => (z : ℚ)) this
    rw [h0, Rat.num_div_den q]
  unfold ratTrunc
  rw [if_pos hq]
  conv_rhs => rw [hq']
  rw [floor_natCast_div _ _ q.den_pos]

/-- Truncation is the identity on casts of nonnegative integers. -/
lemma ratTrunc_intCast (n : ℤ) (hn : 0 ≤ n) : ratTrunc ((n : ℚ)) = n := by
  rw [ratTrunc_eq_floor _ (by exact_mod_cast hn), Int.floor_intCast]

/-- Truncation of a rational that is at least one is positive. -/
lemma ratTrunc_pos (q : ℚ) (hq : 1 ≤ q) : 0 < ratTrunc q := by
  rw [ratTrunc_eq_floor _ (le_trans zero_le_one hq)]
  have : (1 : ℤ) ≤ ⌊q⌋ := Int.le_floor.mpr (by exact_mod_cast hq)
  omega


lemma refilled_absent (cfg : RateLimitConfig) (store : RLStore) (user tier : String)
    (now : ℚ) (h : store user = none) :
    refilledTokens cfg store user tier now = (getLimitForTier cfg tier : ℚ) := by
  simp [refilledTokens, h]

lemma refilled_entry (cfg : RateLimitConfig) (store : RLStore) (user tier : String)
    (now c l : ℚ) (h : store user = some ⟨c, l⟩) :
    refilledTokens cfg store user tier now =
      min (getLimitForTier cfg tier : ℚ)
        (c + (now - l) * ((getLimitForTier cfg tier : ℚ) / (cfg.window_seconds : ℚ))) := by
  simp [refilledTokens, h]

lemma refilled_sameTime (cfg : RateLimitConfig) (store : RLStore) (user tier : String)
    (now c : ℚ) (h : store user = some ⟨c, now⟩) :
    refilledTokens cfg store user tier now = min (getLimitForTier cfg tier : ℚ) c := by
  rw [refilled_entry cfg store user tier now c now h]
  simp

lemma check_snd_self (cfg : RateLimitConfig) (store : RLStore) (user tier : String)
    (now : ℚ) :
    (check_rate_limit cfg store user tier now).2 user =
      some ⟨(if 1 ≤ refilledTokens cfg store user tier now
             then refilledTokens cfg store user tier now - 1
             else refilledTokens cfg store user tier now), now⟩ := by
  simp [check_rate_limit]

lemma check_snd_other (cfg : RateLimitConfig) (store : RLStore) (user tier v : String)
    (now : ℚ) (hv : v ≠ user) :
    (check_rate_limit cfg store user tier now).2 v = store v := by
  simp [check_rate_limit, hv]

lemma check_allowed_eq (cfg : RateLimitConfig) (store : RLStore) (user tier : String)
    (now : ℚ) :
    (check_rate_limit cfg store user tier now).1.allowed =
      decide (1 ≤ refilledTokens cfg store user tier now) := rfl

lemma check_resetIn_eq (cfg : RateLimitConfig) (store : RLStore) (user tier : String)
    (now : ℚ) :
    (check_rate_limit cfg store user tier now).1.resetIn =
      if refilledTokens cfg store user tier now < 1 then
        ratTrunc ((1 - refilledTokens cfg store user tier now) *
          ((cfg.window_seconds : ℚ) / (getLimitForTier cfg tier : ℚ)))
      else 0 := rfl

/-- With all checks issued at the same instant, the refilled token count
seen by check `n + 1` is the limit minus `n`, as long as `n` has not
passed the limit. -/
lemma tokens_after (cfg : RateLimitConfig) (user tier : String) (t0 : ℚ) :
    ∀ n : ℕ, ((n : ℚ) ≤ (getLimitForTier cfg tier : ℚ)) →
      refilledTokens cfg (runChecks cfg user tier t0 n) user tier t0 =
        (getLimitForTier cfg tier : ℚ) - n := by
  intro n
  induction n with
  | zero =>
    intro _
    rw [refilled_absent cfg _ user tier t0 rfl]
    simp
  | succ m ih =>
    intro hm1
    have hm1q : (m : ℚ) + 1 ≤ (getLimitForTier cfg tier : ℚ) := by push_cast at hm1; linarith
    have hm : (m : ℚ) ≤ (getLimitForTier cfg tier : ℚ) := by linarith
    have hr := ih hm
    have hlook : runChecks cfg user tier t0 (m + 1) user =
        some ⟨(getLimitForTier cfg tier : ℚ) - m - 1, t0⟩ := by
      show (check_rate_limit cfg (runChecks cfg user tier t0 m) user tier t0).2 user = _
      rw [check_snd_self, hr, if_pos (by linarith)]
    rw [refilled_sameTime cfg _ user tier t0 _ hlook]
    have hmnn : (0 : ℚ) ≤ (m : ℚ) := Nat.cast_nonneg m
    rw [min_eq_right (by linarith)]
    push_cast
    ring

/-- Full run of the token bucket for any configuration whose limit is at
least one and at most the window length: the first `limit` same-instant
checks pass, the next one fails with a positive `reset_in`, and a quota
query one window later reports a full bucket. -/
lemma token_bucket_run (cfg : RateLimitConfig) (user tier : String) (t0 : ℚ)
    (hL1 : 1 ≤ getLimitForTier cfg tier)
    (hLW : getLimitForTier cfg tier ≤ cfg.window_seconds) :
    (∀ k : ℕ, k < (getLimitForTier cfg tier).toNat →
       (nthCheck cfg user tier t0 k).allowed = true)
  ∧ (nthCheck cfg user tier t0 (getLimitForTier cfg tier).toNat).allowed = false
  ∧ 0 < (nthCheck cfg user tier t0 (getLimitForTier cfg tier).toNat).resetIn
  ∧ (get_quota_status cfg
       (runChecks cfg user tier t0 ((getLimitForTier cfg tier).toNat + 1)) user tier
       (t0 + (cfg.window_seconds : ℚ))).remaining = getLimitForTier cfg tier := by
  have hLz0 : 0 ≤ getLimitForTier cfg tier := by omega
  have hNL : (((getLimitForTier cfg tier).toNat : ℚ)) = ((getLimitForTier cfg tier : ℤ) : ℚ) := by
    exact_mod_cast congrArg (fun z : ℤ => (z : ℚ)) (Int.toNat_of_nonneg hLz0)
  have hLq : (1 : ℚ) ≤ ((getLimitForTier cfg tier : ℤ) : ℚ) := by exact_mod_cast hL1
  have hWq : (0 : ℚ) < (cfg.window_seconds : ℚ) := by
    have : (0 : ℤ) < cfg.window_seconds := by omega
    exact_mod_cast this
  have hrefN : refilledTokens cfg
      (runChecks cfg user tier t0 (getLimitForTier cfg tier).toNat) user tier t0 = 0 := by
    rw [tokens_after cfg user tier t0 _ (le_of_eq hNL), hNL, sub_self]
  refine ⟨?_, ?_, ?_, ?_⟩
  · intro k hk
    have hk1 : (k : ℚ) + 1 ≤ ((getLimitForTier cfg tier : ℤ) : ℚ) := by
      have hk2 : ((k + 1 : ℕ) : ℚ) ≤ (((getLimitForTier cfg tier).toNat : ℚ)) := by
        exact_mod_cast hk
      rw [hNL] at hk2
      push_cast at hk2
      linarith
    unfold nthCheck
    rw [check_allowed_eq,
      tokens_after cfg user tier t0 k (by linarith [Nat.cast_nonneg (α := ℚ) k])]
    simp only [decide_eq_true_eq]
    linarith
  · unfold nthCheck
    rw [check_allowed_eq, hrefN]
    simp
  · unfold nthCheck
    rw [check_resetIn_eq, hrefN, if_pos (by norm_num)]
    have h1 : (1 - (0 : ℚ)) *
        ((cfg.window_seconds : ℚ) / ((getLimitForTier cfg tier : ℤ) : ℚ)) =
        (cfg.window_seconds : ℚ) / ((getLimitForTier cfg tier : ℤ) : ℚ) := by ring
    rw [h1]
    apply ratTrunc_pos
    rw [le_div_iff₀ (by linarith)]
    rw [one_mul]
    exact_mod_cast hLW
  · have hlookN1 : runChecks cfg user tier t0 ((getLimitForTier cfg tier).toNat + 1) user =
        some ⟨0, t0⟩ := by
      show (check_rate_limit cfg
        (runChecks cfg user tier t0 (getLimitForTier cfg tier).toNat) user tier t0).2 user = _
      rw [check_snd_self, hrefN, if_neg (by norm_num)]
    have hcur : refilledTokens cfg
        (runChecks cfg user tier t0 ((getLimitForTier cfg tier).toNat + 1)) user tier
        (t0 + (cfg.window_seconds : ℚ)) = ((getLimitForTier cfg tier : ℤ) : ℚ) := by
      rw [refilled_entry cfg _ user tier _ 0 t0 hlookN1]
      have h2 : (0 : ℚ) + ((t0 + (cfg.window_seconds : ℚ)) - t0) *
          (((getLimitForTier cfg tier : ℤ) : ℚ) / (cfg.window_seconds : ℚ)) =
          ((getLimitForTier cfg tier : ℤ) : ℚ) := by
        rw [add_sub_cancel_left, zero_add, mul_comm, div_mul_cancel₀]
        exact ne_of_gt hWq
      rw [h2, min_self]
    simp only [get_quota_status]
    rw [hcur, ratTrunc_intCast _ hLz0, max_eq_right hLz0]



lemma depletedStore_refilled :
    refilledTokens defaultRateLimitConfig depletedStore "alice" "pro" 100 = 0 := by
  have hs : depletedStore "alice" = some ⟨0, 100⟩ := rfl
  rw [refilled_sameTime _ _ _ _ _ _ hs]
  rw [min_eq_right]
  norm_num [getLimitForTier, defaultRateLimitConfig]

/-- C5 counterexample: for the pro tier (limit 50, window 60) with a fully
depleted record, the code returns `reset_in = int(1.2) = 1`, while the
claimed ceiling formula gives 2. -/
theorem C5_counterexample :
    refilledTokens defaultRateLimitConfig depletedStore "alice" "pro" 100 < 1 ∧
    (check_rate_limit defaultRateLimitConfig depletedStore "alice" "pro" 100).1.resetIn ≠
      ⌈(1 - refilledTokens defaultRateLimitConfig depletedStore "alice" "pro" 100) *
        ((defaultRateLimitConfig.window_seconds : ℚ) /
         (getLimitForTier defaultRateLimitConfig "pro" : ℚ))⌉ := by
  constructor
  · rw [depletedStore_refilled]; norm_num
  · rw [check_resetIn_eq, depletedStore_refilled, if_pos (by norm_num)]
    have hL : ((getLimitForTier defaultRateLimitConfig "pro" : ℤ) : ℚ) = 50 := by
      norm_num [getLimitForTier, defaultRateLimitConfig]
    have hW : ((defaultRateLimitConfig.window_seconds : ℤ) : ℚ) = 60 := by
      norm_num [defaultRateLimitConfig]
    rw [hL, hW]
    have harg : (1 - (0 : ℚ)) * ((60 : ℚ) / 50) = 6 / 5 := by norm_num
    rw [harg]
    have h1 : ratTrunc ((6 : ℚ) / 5) = 1 := by
      rw [ratTrunc_eq_floor _ (by norm_num)]
      rw [Int.floor_eq_iff]
      norm_num
    have h2 : ⌈((6 : ℚ) / 5)⌉ = 2 := by
      rw [Int.ceil_eq_iff]
      norm_num
    rw [h1, h2]
    decide



/-- C5 (amended): on rejection the code returns the *floor* (Python
`int()` truncation of a nonnegative quantity) of
`(1 - tokens) * window / limit`, not the ceiling; when at least one token
is available, `reset_in` is 0. -/
theorem C5_reset_in_formula (cfg : RateLimitConfig) (store : RLStore) (user tier : String)
    (now : ℚ) (hL : 1 ≤ getLimitForTier cfg tier) (hW : 1 ≤ cfg.window_seconds) :
    (refilledTokens cfg store user tier now < 1 →
      (check_rate_limit cfg store user tier now).1.resetIn =
        ⌊(1 - refilledTokens cfg store user tier now) *
          ((cfg.window_seconds : ℚ) / (getLimitForTier cfg tier : ℚ))⌋)
  ∧ (1 ≤ refilledTokens cfg store user tier now →
      (check_rate_limit cfg store user tier now).1.resetIn = 0) := by
  constructor
  · intro h
    rw [check_resetIn_eq, if_pos h]
    apply ratTrunc_eq_floor
    apply mul_nonneg (by linarith)
    apply div_nonneg
    · exact_mod_cast (by omega : (0 : ℤ) ≤ cfg.window_seconds)
    · exact_mod_cast (by omega : (0 : ℤ) ≤ getLimitForTier cfg tier)
  · intro h
    rw [check_resetIn_eq, if_neg (not_lt.mpr h)]

/-- Witness for C5: at the depleted pro-tier record the amended formula
evaluates to `⌊6/5⌋ = 1`. -/
theorem C5_reset_in_formula_witness :
    refilledTokens defaultRateLimitConfig depletedStore "alice" "pro" 100 < 1 ∧
    (check_rate_limit defaultRateLimitConfig depletedStore "alice" "pro" 100).1.resetIn =
      ⌊(1 - refilledTokens defaultRateLimitConfig depletedStore "alice" "pro" 100) *
        ((defaultRateLimitConfig.window_seconds : ℚ) /
         (getLimitForTier defaultRateLimitConfig "pro" : ℚ))⌋ := by
  have hlt : refilledTokens defaultRateLimitConfig depletedStore "alice" "pro" 100 < 1 := by
    rw [depletedStore_refilled]; norm_num
  exact ⟨hlt,
    (C5_reset_in_formula defaultRateLimitConfig depletedStore "alice" "pro" 100
      (by norm_num [getLimitForTier, defaultRateLimitConfig])
      (by norm_num [defaultRateLimitConfig])).1 hlt⟩

/-- C6: for either tier of the shipped configuration (free: 5, pro: 50,
window 60), starting from an absent record, all `limit` same-instant
checks are allowed, check `limit + 1` is rejected with `reset_in > 0`,
and a quota query issued one window after the last check reports
`remaining = limit`. -/
theorem C6_token_bucket_exhaustion (tier user : String) (t0 : ℚ) :
    (∀ k : ℕ, k < (getLimitForTier defaultRateLimitConfig tier).toNat →
       (nthCheck defaultRateLimitConfig user tier t0 k).allowed = true)
  ∧ (nthCheck defaultRateLimitConfig user tier t0
       (getLimitForTier defaultRateLimitConfig tier).toNat).allowed = false
  ∧ 0 < (nthCheck defaultRateLimitConfig user tier t0
       (getLimitForTier defaultRateLimitConfig tier).toNat).resetIn
  ∧ (get_quota_status defaultRateLimitConfig
       (runChecks defaultRateLimitConfig user tier t0
         ((getLimitForTier defaultRateLimitConfig tier).toNat + 1)) user tier
       (t0 + (defaultRateLimitConfig.window_seconds : ℚ))).remaining =
       getLimitForTier defaultRateLimitConfig tier := by
  apply token_bucket_run
  · by_cases h : tier = "pro" <;> simp [getLimitForTier, defaultRateLimitConfig, h]
  · by_cases h : tier = "pro" <;> simp [getLimitForTier, defaultRateLimitConfig, h]

/-- Witness for C6 at the free tier: the first check passes and
check number 6 is rejected. -/
theorem C6_token_bucket_exhaustion_witness :
    ((0 : ℕ) < (getLimitForTier defaultRateLimitConfig "free").toNat ∧
      (nthCheck defaultRateLimitConfig "alice" "free" 0 0).allowed = true)
  ∧ (nthCheck defaultRateLimitConfig "alice" "free" 0
       (getLimitForTier defaultRateLimitConfig "free").toNat).allowed = false := by
  have h := C6_token_bucket_exhaustion "free" "alice" 0
  exact ⟨⟨by decide, h.1 0 (by decide)⟩, h.2.1⟩



/-- C9: starting from a stored record with `0 ≤ tokens ≤ limit` and a
non-decreasing clock, the record written back is again within
`[0, limit]`; the refill is capped at the limit and a token is consumed
exactly when at least one is available. -/
theorem C9_token_count_invariant (cfg : RateLimitConfig) (store : RLStore)
    (user tier : String) (now c l : ℚ)
    (hs : store user = some ⟨c, l⟩) (hc0 : 0 ≤ c)
    (_hcL : c ≤ (getLimitForTier cfg tier : ℚ)) (hl : l ≤ now)
    (hL : 1 ≤ getLimitForTier cfg tier) (hW : 1 ≤ cfg.window_seconds) :
    ∃ e : RLEntry, (check_rate_limit cfg store user tier now).2 user = some e ∧
      0 ≤ e.tokens ∧ e.tokens ≤ (getLimitForTier cfg tier : ℚ) ∧
      refilledTokens cfg store user tier now ≤ (getLimitForTier cfg tier : ℚ) ∧
      ((check_rate_limit cfg store user tier now).1.allowed = true ↔
        1 ≤ refilledTokens cfg store user tier now) := by
  have hLq : (1 : ℚ) ≤ ((getLimitForTier cfg tier : ℤ) : ℚ) := by exact_mod_cast hL
  have hWq : (0 : ℚ) ≤ (cfg.window_seconds : ℚ) := by
    exact_mod_cast (by omega : (0 : ℤ) ≤ cfg.window_seconds)
  have hrange : 0 ≤ refilledTokens cfg store user tier now ∧
      refilledTokens cfg store user tier now ≤ ((getLimitForTier cfg tier : ℤ) : ℚ) := by
    rw [refilled_entry cfg store user tier now c l hs]
    constructor
    · apply le_min (by linarith)
      apply add_nonneg hc0
      apply mul_nonneg (by linarith)
      exact div_nonneg (by linarith) (by linarith)
    · exact min_le_left _ _
  refine ⟨⟨_, now⟩, check_snd_self cfg store user tier now, ?_, ?_, hrange.2, ?_⟩
  · dsimp only
    split_ifs with h
    · linarith [hrange.1]
    · exact hrange.1
  · dsimp only
    split_ifs with h
    · linarith [hrange.2]
    · exact hrange.2
  · rw [check_allowed_eq]
    simp

/-- Witness for C9 at a concrete mid-level free-tier record. -/
theorem C9_token_count_invariant_witness :
    (fun v => if v = "bob" then some (⟨3, 10⟩ : RLEntry) else none) "bob" =
        some (⟨3, 10⟩ : RLEntry) ∧
    ∃ e : RLEntry,
      (check_rate_limit defaultRateLimitConfig
        (fun v => if v = "bob" then some ⟨3, 10⟩ else none) "bob" "free" 10).2 "bob" =
          some e ∧
      0 ≤ e.tokens ∧
      e.tokens ≤ (getLimitForTier defaultRateLimitConfig "free" : ℚ) ∧
      refilledTokens defaultRateLimitConfig
        (fun v => if v = "bob" then some ⟨3, 10⟩ else none) "bob" "free" 10 ≤
        (getLimitForTier defaultRateLimitConfig "free" : ℚ) ∧
      ((check_rate_limit defaultRateLimitConfig
        (fun v => if v = "bob" then some ⟨3, 10⟩ else none) "bob" "free" 10).1.allowed = true ↔
        1 ≤ refilledTokens defaultRateLimitConfig
          (fun v => if v = "bob" then some ⟨3, 10⟩ else none) "bob" "free" 10) :=
  ⟨rfl, C9_token_count_invariant defaultRateLimitConfig _ "bob" "free" 10 3 10 rfl
    (by norm_num)
    (by show (3 : ℚ) ≤ ((5 : ℤ) : ℚ); norm_num)
    (by norm_num)
    (by decide)
    (by norm_num [defaultRateLimitConfig])⟩

/-- C10: every check overwrites the caller's record — refilled tokens
(minus one when allowed) and the current timestamp — and leaves every
other identity's record untouched; in particular a rejected request
still persists the refill. -/
theorem C10_record_always_written (cfg : RateLimitConfig) (store : RLStore)
    (user tier : String) (now : ℚ) :
    ((check_rate_limit cfg store user tier now).2 user =
      some ⟨(if 1 ≤ refilledTokens cfg store user tier now
             then refilledTokens cfg store user tier now - 1
             else refilledTokens cfg store user tier now), now⟩)
  ∧ ((check_rate_limit cfg store user tier now).1.allowed = false →
      (check_rate_limit cfg store user tier now).2 user =
        some ⟨refilledTokens cfg store user tier now, now⟩)
  ∧ (∀ v, v ≠ user → (check_rate_limit cfg store user tier now).2 v = store v) := by
  refine ⟨check_snd_self cfg store user tier now, ?_,
    fun v hv => check_snd_other cfg store user tier v now hv⟩
  intro h
  rw [check_allowed_eq] at h
  simp only [decide_eq_false_iff_not] at h
  rw [check_snd_self, if_neg h]

/-- Witness for C10: a rejected check on the depleted record still
rewrites the record, and a different user's (absent) record stays
absent. -/
theorem C10_record_always_written_witness :
    ((check_rate_limit defaultRateLimitConfig depletedStore "alice" "pro" 100).1.allowed
        = false ∧
      (check_rate_limit defaultRateLimitConfig depletedStore "alice" "pro" 100).2 "alice" =
        some ⟨refilledTokens defaultRateLimitConfig depletedStore "alice" "pro" 100, 100⟩)
  ∧ ("bob" ≠ "alice" ∧
      (check_rate_limit defaultRateLimitConfig depletedStore "alice" "pro" 100).2 "bob" =
        depletedStore "bob") := by
  have hfalse :
      (check_rate_limit defaultRateLimitConfig depletedStore "alice" "pro" 100).1.allowed
        = false := by
    rw [check_allowed_eq, depletedStore_refilled]
    simp
  have h := C10_record_always_written defaultRateLimitConfig depletedStore "alice" "pro" 100
  exact ⟨⟨hfalse, h.2.1 hfalse⟩, ⟨by decide, h.2.2 "bob" (by decide)⟩⟩


/-- C3: with thresholds `low < high`, the router sends
sub-`low` confidence to clarify; `[low, high)` confidence, or ambiguity
at confidence at least `low`, to disambiguate; and reaches teach exactly
when confidence is at least `high` and ambiguity is off. Both boundary
comparisons are strict `<` against the threshold. -/
theorem C3_route_by_confidence_cases (s : Settings) (st : GraphState)
    (hlh : s.confidence_threshold_low < s.confidence_threshold_high) :
    (st.confidence_score < s.confidence_threshold_low →
      route_by_confidence s st = .clarify)
  ∧ ((s.confidence_threshold_low ≤ st.confidence_score ∧
        st.confidence_score < s.confidence_threshold_high) ∨
      (st.detected_ambiguity = true ∧
        s.confidence_threshold_low ≤ st.confidence_score) →
      route_by_confidence s st = .disambiguate)
  ∧ (route_by_confidence s st = .teach ↔
      (s.confidence_threshold_high ≤ st.confidence_score ∧
        st.detected_ambiguity = false)) := by
  unfold route_by_confidence
  refine ⟨?_, ?_, ?_⟩
  · intro h
    rw [if_pos h]
  · rintro (⟨h1, h2⟩ | ⟨ha, h1⟩)
    · rw [if_neg (not_lt.mpr h1), if_pos (Or.inl h2)]
    · rw [if_neg (not_lt.mpr h1), if_pos (Or.inr (by simp [ha]))]
  · constructor
    · intro h
      split_ifs at h with h1 h2
      push_neg at h2
      exact ⟨h2.1, by simpa using h2.2⟩
    · rintro ⟨h1, h2⟩
      rw [if_neg (not_lt.mpr (le_trans (le_of_lt hlh) h1)),
        if_neg (by simp [not_or, not_lt.mpr h1, h2])]

/-- Witness for C3: with the shipped thresholds 0.4 and 0.75,
confidence 0.2 routes to clarify, 0.6 to disambiguate, and 0.95 without
ambiguity to teach. -/
theorem C3_route_by_confidence_cases_witness :
    settings.confidence_threshold_low < settings.confidence_threshold_high
  ∧ route_by_confidence settings
      { mkInputState .text "q" with confidence_score := 1/5 } = .clarify
  ∧ route_by_confidence settings
      { mkInputState .text "q" with confidence_score := 3/5 } = .disambiguate
  ∧ route_by_confidence settings
      { mkInputState .text "q" with confidence_score := 19/20 } = .teach := by
  have hlh : settings.confidence_threshold_low < settings.confidence_threshold_high := by
    norm_num [settings]
  refine ⟨hlh, ?_, ?_, ?_⟩
  · exact (C3_route_by_confidence_cases settings _ hlh).1 (by norm_num [settings, mkInputState])
  · exact (C3_route_by_confidence_cases settings _ hlh).2.1
      (Or.inl (by constructor <;> norm_num [settings, mkInputState]))
  · exact (C3_route_by_confidence_cases settings _ hlh).2.2.mpr
      (by constructor
          · norm_num [settings, mkInputState]
          · rfl)


/-- C4 counterexample: input "1+1" carries math-operator tokens, yet an
adapter confidence of 0.95 is left untouched (the forcing only fires
below 0.9), so the resulting confidence is not at least 1.0. -/
theorem C4_counterexample :
    hasMathIndicator "1+1" = true
  ∧ (text_classifier_node settings (some mathyMidConfResult)
      (mkInputState .text "1+1")).confidence_score = 19/20
  ∧ ¬ (1 ≤ (text_classifier_node settings (some mathyMidConfResult)
      (mkInputState .text "1+1")).confidence_score) := by
  have hm : hasMathIndicator "1+1" = true := by decide
  have h1 : confAfterTopicFix mathyMidConfResult = 19/20 := by
    unfold confAfterTopicFix mathyMidConfResult
    rw [if_neg]
    rintro ⟨-, -, h⟩
    norm_num at h
  have h2 : confAfterMathFix mathyMidConfResult "1+1" = 19/20 := by
    unfold confAfterMathFix
    rw [h1, if_neg]
    rintro ⟨-, h⟩
    norm_num at h
  have hs : (text_classifier_node settings (some mathyMidConfResult)
      (mkInputState .text "1+1")).confidence_score =
      confAfterMathFix mathyMidConfResult "1+1" := rfl
  refine ⟨hm, ?_, ?_⟩
  · rw [hs, h2]
  · rw [hs, h2]
    norm_num

/-- C4 (amended): the identified-topic override bumps sub-0.5 confidence
to exactly 0.95; the math-token override forces confidence to 1.0 only
when it is still below 0.9 after the first override, so with a math token
the resulting confidence is at least 0.9 (not necessarily 1.0); the text
classifier records exactly this post-processed value, and the vision
path applies no such overrides. -/
theorem C4_classifier_confidence_overrides (result : ClassificationResult) (input : String) :
    (result.specific_topic ≠ "" → result.specific_topic ≠ "Unknown" →
      result.confidence < 1/2 → confAfterTopicFix result = 19/20)
  ∧ (hasMathIndicator input = true → (9 : ℚ)/10 ≤ confAfterMathFix result input)
  ∧ (hasMathIndicator input = true → confAfterTopicFix result < 9/10 →
      confAfterMathFix result input = 1)
  ∧ (∀ (s : Settings) (st : GraphState),
      (text_classifier_node s (some result) st).confidence_score =
        confAfterMathFix result st.input_content)
  ∧ (∀ (data : VisionData) (st : GraphState),
      (vision_classifier_node (.parsed data) st).confidence_score =
        data.confidence.getD (9/10)) := by
  refine ⟨?_, ?_, ?_, fun s st => rfl, fun data st => rfl⟩
  · intro h1 h2 h3
    unfold confAfterTopicFix
    rw [if_pos ⟨h1, h2, h3⟩]
  · intro hm
    unfold confAfterMathFix
    split_ifs with h
    · norm_num
    · simp only [hm, true_and] at h
      linarith [not_lt.mp h]
  · intro hm hlt
    unfold confAfterMathFix
    rw [if_pos ⟨hm, hlt⟩]

/-- Witness for C4: a result with topic "Linear Equations" and
confidence 0.2 is bumped to 0.95, and with the math-token input
"2x+5=13" the final confidence is at least 0.9. -/
theorem C4_classifier_confidence_overrides_witness :
    ((1 : ℚ)/5 < 1/2 ∧ confAfterTopicFix lowConfTextResult = 19/20)
  ∧ (hasMathIndicator "2x+5=13" = true ∧
      (9 : ℚ)/10 ≤ confAfterMathFix lowConfTextResult "2x+5=13") := by
  refine ⟨⟨by norm_num, ?_⟩, ⟨by decide, ?_⟩⟩
  · exact (C4_classifier_confidence_overrides lowConfTextResult "2x+5=13").1
      (by decide) (by decide) (by norm_num [lowConfTextResult])
  · exact (C4_classifier_confidence_overrides lowConfTextResult "2x+5=13").2.1 (by decide)


/-- C7 counterexample: the vision success path stores the parsed topic
unconditionally, so a reported confidence of 0.2 (< low = 0.4) coexists
with a set topic. -/
theorem C7_counterexample :
    (vision_classifier_node (.parsed lowConfVisionData)
        (mkInputState .image "aW1n")).confidence_score <
      settings.confidence_threshold_low
  ∧ (vision_classifier_node (.parsed lowConfVisionData)
        (mkInputState .image "aW1n")).topic = some "Math - Algebra - Linear Equations" := by
  constructor
  · show (1 : ℚ)/5 < settings.confidence_threshold_low
    norm_num [settings]
  · rfl

/-- C7 (amended): the low-confidence-implies-no-topic invariant holds for
every text-classifier output (both the success and the exception path)
and for both vision fallback paths; the vision success path instead sets
the topic unconditionally. -/
theorem C7_low_confidence_topic_unset (s : Settings)
    (outcome : Option ClassificationResult) (st : GraphState) :
    ((text_classifier_node s outcome st).confidence_score < s.confidence_threshold_low →
      (text_classifier_node s outcome st).topic = none)
  ∧ ((vision_classifier_node .errorFallback st).topic = none)
  ∧ ((vision_classifier_node .retriesExhausted st).topic = none) := by
  refine ⟨?_, rfl, rfl⟩
  match outcome with
  | none => intro _; rfl
  | some result =>
    intro h
    have h' : (text_classifier_node s (some result) st).confidence_score =
        confAfterMathFix result st.input_content := rfl
    rw [h'] at h
    show (if s.confidence_threshold_low ≤ confAfterMathFix result st.input_content
      then _ else none) = none
    rw [if_neg (not_le.mpr h)]

/-- Witness for C7 at the text classifier's exception fallback:
confidence 0.3 is below the low threshold 0.4 and the topic is unset. -/
theorem C7_low_confidence_topic_unset_witness :
    (text_classifier_node settings none (mkInputState .text "q")).confidence_score <
      settings.confidence_threshold_low
  ∧ (text_classifier_node settings none (mkInputState .text "q")).topic = none := by
  have hlt : (text_classifier_node settings none (mkInputState .text "q")).confidence_score <
      settings.confidence_threshold_low := by
    show (3 : ℚ)/10 < settings.confidence_threshold_low
    norm_num [settings]
  exact ⟨hlt,
    (C7_low_confidence_topic_unset settings none (mkInputState .text "q")).1 hlt⟩

/-- C1: the fan-out/join merge loses the practice branch's write: each
branch returns a full copy of the input state, and the video result is
merged last, overwriting `practice_problem` with its stale input-state
value. The merged state's `practice_problem` always equals the input
state's (in the real pipeline: `None`), while `video_url` is set. -/
theorem C1_parallel_join_drops_practice (st : GraphState) :
    (parallel_teaching_nodes st).practice_problem = st.practice_problem
  ∧ (parallel_teaching_nodes st).video_url = some "https://youtube.com/watch?v=example"
  ∧ (parallel_teaching_nodes (mkInputState .text "2x+5=13")).practice_problem = none :=
  ⟨rfl, rfl, rfl⟩

/-- C2: resuming an unknown session does not create state, but the 404
raised by the handler is swallowed by its own blanket `except Exception`
and surfaces as HTTP 500, not as a NotFound. -/
theorem C2_resume_unknown_session (planR : Option TeachingPlan)
    (solR : Option WorkedSolution) :
    resume_workflow emptyCkptStore planR solR ⟨"missing-session", "Math - Algebra"⟩ =
      .httpError 500 "404: Thread not found" emptyCkptStore := rfl


lemma teachPipeline_out (planR : Option TeachingPlan) (solR : Option WorkedSolution)
    (st : GraphState) :
    (teachPipeline planR solR st).final_response_html =
      some ("<html><body><h1>" ++ optStr st.topic ++ "</h1></body></html>")
  ∧ (teachPipeline planR solR st).requires_user_action = false := by
  cases planR <;> cases solR <;> exact ⟨rfl, rfl⟩

lemma assembled_html_ne_empty (s : String) :
    ("<html><body><h1>" ++ s ++ "</h1></body></html>") ≠ "" := by
  intro h
  have hlen := congrArg String.length h
  rw [String.length_append, String.length_append] at hlen
  have h1 : ("<html><body><h1>" : String).length = 16 := rfl
  have h2 : ("</h1></body></html>" : String).length = 19 := rfl
  have h3 : ("" : String).length = 0 := rfl
  rw [h1, h2, h3] at hlen
  omega

/-- C8: resuming a session halted awaiting input with a valid (non-empty)
topic selection yields a `completed` response with
`requires_user_action = false` and a non-empty `final_response_html`. -/
theorem C8_resume_halted_completes (store : CkptStore) (planR : Option TeachingPlan)
    (solR : Option WorkedSolution) (tid sel : String) (st : GraphState)
    (hs : store tid = some st) (_hhalt : st.requires_user_action = true)
    (_hsel : sel ≠ "") :
    ∃ (resp : AnalyzeResponse) (store2 : CkptStore),
      resume_workflow store planR solR ⟨tid, sel⟩ = .ok resp store2
    ∧ resp.status = .completed
    ∧ resp.requires_user_action = false
    ∧ resp.final_response_html = some ("<html><body><h1>" ++ sel ++ "</h1></body></html>")
    ∧ (∀ h : String, resp.final_response_html = some h → h ≠ "") := by
  have hroute : route_by_confidence settings (applyOverride sel st) = .teach := by
    unfold route_by_confidence
    have hc : (applyOverride sel st).confidence_score = 1 := rfl
    have ha : (applyOverride sel st).detected_ambiguity = false := rfl
    rw [hc, ha]
    rw [if_neg (by norm_num [settings]), if_neg (by simp; norm_num [settings])]
  have hout := teachPipeline_out planR solR (applyOverride sel st)
  have htopic : (applyOverride sel st).topic = some sel := rfl
  simp only [resume_workflow, hs, continueFromRouter, hroute]
  refine ⟨_, _, rfl, rfl, rfl, ?_, ?_⟩
  · rw [hout.1, htopic]
    simp only [optStr]
  · intro h hh
    rw [hout.1, htopic] at hh
    simp only [optStr] at hh
    have heq : ("<html><body><h1>" ++ sel ++ "</h1></body></html>") = h :=
      Option.some.inj hh
    rw [← heq]
    exact assembled_html_ne_empty _

/-- Witness for C8: the concrete halted session `"s1"` resumed with a
valid selection. -/
theorem C8_resume_halted_completes_witness :
    haltedStore "s1" = some haltedState
  ∧ haltedState.requires_user_action = true
  ∧ ("Math - Linear Algebra - Cross Product" : String) ≠ ""
  ∧ ∃ (resp : AnalyzeResponse) (store2 : CkptStore),
      resume_workflow haltedStore none none
          ⟨"s1", "Math - Linear Algebra - Cross Product"⟩ = .ok resp store2
    ∧ resp.status = .completed
    ∧ resp.requires_user_action = false
    ∧ resp.final_response_html =
        some ("<html><body><h1>" ++ "Math - Linear Algebra - Cross Product"
          ++ "</h1></body></html>")
    ∧ (∀ h : String, resp.final_response_html = some h → h ≠ "") := by
  refine ⟨rfl, rfl, by decide, ?_⟩
  exact C8_resume_halted_completes haltedStore none none "s1"
    "Math - Linear Algebra - Cross Product" haltedState rfl rfl (by decide)

end Tutor
